import Mathlib

/-!
Verification of the BBR "full pipe" estimator
(src/quic/s2n-quic-core/src/recovery/bbr/full_pipe.rs).

The estimator decides, once per round trip, whether BBR has fully utilized
its available bandwidth.  It is a single state record with two mutating
entry points, on_round_start and on_packet_lost, and three internal checks
evaluated with short-circuiting OR: bandwidth_plateaued, excessive_inflight
and excessive_explicit_congestion.

The Bandwidth type, the saturating Counter and the external inflight
classifier live outside the excerpted file; they are modelled from the
spec where noted.
-/

namespace FullPipe

/-- Modelled from the spec: the Bandwidth type (crate::recovery::bandwidth)
is not part of the excerpted source.  The spec describes it as a rate of
bytes per unit time with exact rational semantics, represented as a
numerator/denominator pair with exact cross-multiplication for comparisons.
The represented rate is bytes / nanos. -/
structure Bandwidth where
  bytes : Nat
  nanos : Nat
deriving DecidableEq, Repr

/-- Modelled from the spec: exact rational multiplication of a Bandwidth by
the fraction num/den (the Rust expression full_bw * DELIVERY_RATE_INCREASE,
with DELIVERY_RATE_INCREASE a num_rational::Ratio), with no rounding. -/
def Bandwidth.mulFrac (b : Bandwidth) (num den : Nat) : Bandwidth :=
  { bytes := b.bytes * num, nanos := b.nanos * den }

/-- Modelled from the spec: exact rational comparison a <= b of two
bandwidth values by cross-multiplication (no floating point). -/
def Bandwidth.le (a b : Bandwidth) : Bool :=
  decide (a.bytes * b.nanos ≤ b.bytes * a.nanos)

/-- Modelled from the spec: the zero Bandwidth, the default value of the
full_bw field (0 bytes per unit time). -/
def Bandwidth.zero : Bandwidth :=
  { bytes := 0, nanos := 1 }

/-- The fields of bandwidth::RateSample consumed by the estimator (the
is_app_limited flag is read directly; the remaining fields are consumed
only by the external inflight classifier). -/
structure RateSample where
  is_app_limited : Bool
  bytes_in_flight : Nat
  lost_bytes : Nat
  delivered_bytes : Nat
  ecn_ce_count : Nat
deriving DecidableEq, Repr

/-- An all-zero rate sample, as produced by RateSample::default(). -/
def RateSample.init : RateSample :=
  { is_app_limited := false, bytes_in_flight := 0, lost_bytes := 0
    delivered_bytes := 0, ecn_ce_count := 0 }

/-- Saturating increment of a Counter of u8: adding 1 clamps at the
representable maximum 255 instead of wrapping (counter::Counter with the
Saturating behavior). -/
def satIncr (c : Nat) : Nat :=
  min (c + 1) 255

/-- The Estimator state record (struct Estimator in full_pipe.rs).
Counters of u8 are modelled as Nat; all mutations are 0 or satIncr, so
values stay in 0..=255. -/
@[ext]
structure Estimator where
  filled_pipe : Bool
  full_bw : Bandwidth
  full_bw_count : Nat
  loss_bursts : Nat
  ecn_ce_rounds : Nat
  in_recovery_last_round : Bool
deriving DecidableEq, Repr

/-- Estimator::default(): every field at its zero/false default. -/
def Estimator.init : Estimator :=
  { filled_pipe := false, full_bw := Bandwidth.zero, full_bw_count := 0
    loss_bursts := 0, ecn_ce_rounds := 0, in_recovery_last_round := false }

/-- Source constant DELIVERY_RATE_INCREASE = Ratio::new_raw(4, 3).  The
adjoining source comment and the quoted IETF draft both say 1.25, but the
constant the code actually uses is the fraction 4/3. -/
def DELIVERY_RATE_INCREASE : Nat × Nat := (4, 3)

/-- Source constant BANDWIDTH_PLATEAU_ROUND_COUNT = 3. -/
def BANDWIDTH_PLATEAU_ROUND_COUNT : Nat := 3

/-- Source constant STARTUP_FULL_LOSS_COUNT = 3. -/
def STARTUP_FULL_LOSS_COUNT : Nat := 3

/-- Source constant STARTUP_FULL_ECN_COUNT = 2. -/
def STARTUP_FULL_ECN_COUNT : Nat := 2

/-- Estimator::bandwidth_plateaued.  Returns the Bool result together with
the updated state (the Rust method mutates self). -/
def bandwidth_plateaued (e : Estimator) (rate_sample : RateSample)
    (max_bw : Bandwidth) : Bool × Estimator :=
  if rate_sample.is_app_limited then
    (false, e)
  else if Bandwidth.le
      (e.full_bw.mulFrac DELIVERY_RATE_INCREASE.1 DELIVERY_RATE_INCREASE.2)
      max_bw then
    (false, { e with full_bw := max_bw, full_bw_count := 0 })
  else
    (decide (BANDWIDTH_PLATEAU_ROUND_COUNT ≤ satIncr e.full_bw_count),
     { e with full_bw_count := satIncr e.full_bw_count })

/-- Estimator::excessive_inflight.  The call
BbrCongestionController::is_inflight_too_high(rate_sample, max_datagram_size)
is external to the excerpted file; it is modelled from the spec as a pure
boolean classifier passed in as the parameter inflight_too_high. -/
def excessive_inflight (inflight_too_high : RateSample → Nat → Bool)
    (e : Estimator) (rate_sample : RateSample) (in_recovery : Bool)
    (max_datagram_size : Nat) : Bool × Estimator :=
  if in_recovery && e.in_recovery_last_round
      && inflight_too_high rate_sample max_datagram_size
      && decide (STARTUP_FULL_LOSS_COUNT ≤ e.loss_bursts) then
    (true, e)
  else
    (false, { e with in_recovery_last_round := in_recovery, loss_bursts := 0 })

/-- Estimator::excessive_explicit_congestion. -/
def excessive_explicit_congestion (e : Estimator)
    (ecn_ce_count_too_high : Bool) : Bool × Estimator :=
  let e1 :=
    if ecn_ce_count_too_high then
      { e with ecn_ce_rounds := satIncr e.ecn_ce_rounds }
    else
      { e with ecn_ce_rounds := 0 }
  (decide (STARTUP_FULL_ECN_COUNT ≤ e1.ecn_ce_rounds), e1)

/-- Estimator::on_round_start.  Returns immediately when filled_pipe is
already set; otherwise evaluates the three checks with short-circuiting OR
in the source's fixed order, threading the mutated state, and assigns the
result to filled_pipe. -/
def on_round_start (inflight_too_high : RateSample → Nat → Bool)
    (e : Estimator) (rate_sample : RateSample) (max_bw : Bandwidth)
    (in_recovery : Bool) (ecn_ce_count_too_high : Bool)
    (max_datagram_size : Nat) : Estimator :=
  if e.filled_pipe then
    e
  else
    match bandwidth_plateaued e rate_sample max_bw with
    | (true, e1) => { e1 with filled_pipe := true }
    | (false, e1) =>
      match excessive_inflight inflight_too_high e1 rate_sample in_recovery
          max_datagram_size with
      | (true, e2) => { e2 with filled_pipe := true }
      | (false, e2) =>
        match excessive_explicit_congestion e2 ecn_ce_count_too_high with
        | (b3, e3) => { e3 with filled_pipe := b3 }

/-- Estimator::on_packet_lost. -/
def on_packet_lost (e : Estimator) (new_loss_burst : Bool) : Estimator :=
  if e.filled_pipe then
    e
  else if new_loss_burst then
    { e with loss_bursts := satIncr e.loss_bursts }
  else
    e

/-- One external call into the estimator: either an on_round_start with its
five arguments, or an on_packet_lost. -/
inductive Event where
  | roundStart (rate_sample : RateSample) (max_bw : Bandwidth)
      (in_recovery : Bool) (ecn_ce_count_too_high : Bool)
      (max_datagram_size : Nat)
  | packetLost (new_loss_burst : Bool)

/-- Apply one external call to the estimator state. -/
def step (inflight_too_high : RateSample → Nat → Bool) (e : Estimator) :
    Event → Estimator
  | Event.roundStart rs mb inr ecn mds =>
      on_round_start inflight_too_high e rs mb inr ecn mds
  | Event.packetLost b => on_packet_lost e b

/-- Apply a sequence of external calls, left to right. -/
def run (inflight_too_high : RateSample → Nat → Bool) (e : Estimator)
    (evs : List Event) : Estimator :=
  evs.foldl (step inflight_too_high) e

/-- Modelled from the spec: exact rational strict comparison a < b of two
bandwidth values by cross-multiplication. -/
def Bandwidth.lt (a b : Bandwidth) : Bool :=
  decide (a.bytes * b.nanos < b.bytes * a.nanos)

/-- A bandwidth value is well formed when its time denominator is positive. -/
def Bandwidth.wf (b : Bandwidth) : Prop :=
  0 < b.nanos

/-- An event is well formed when any bandwidth it carries is well formed. -/
def Event.wf : Event → Prop
  | Event.roundStart _ mb _ _ _ => mb.wf
  | Event.packetLost _ => True

/- Helper lemmas shared by the claim theorems. -/

theorem bandwidth_plateaued_preserves (e : Estimator) (rs : RateSample)
    (mb : Bandwidth) :
    ((bandwidth_plateaued e rs mb).2).loss_bursts = e.loss_bursts ∧
    ((bandwidth_plateaued e rs mb).2).ecn_ce_rounds = e.ecn_ce_rounds ∧
    ((bandwidth_plateaued e rs mb).2).in_recovery_last_round
      = e.in_recovery_last_round ∧
    ((bandwidth_plateaued e rs mb).2).filled_pipe = e.filled_pipe := by
  unfold bandwidth_plateaued
  split
  · exact ⟨rfl, rfl, rfl, rfl⟩
  · split
    · exact ⟨rfl, rfl, rfl, rfl⟩
    · exact ⟨rfl, rfl, rfl, rfl⟩

theorem excessive_inflight_preserves (f : RateSample → Nat → Bool)
    (e : Estimator) (rs : RateSample) (inr : Bool) (mds : Nat) :
    ((excessive_inflight f e rs inr mds).2).full_bw = e.full_bw ∧
    ((excessive_inflight f e rs inr mds).2).full_bw_count = e.full_bw_count ∧
    ((excessive_inflight f e rs inr mds).2).ecn_ce_rounds = e.ecn_ce_rounds ∧
    ((excessive_inflight f e rs inr mds).2).filled_pipe = e.filled_pipe := by
  unfold excessive_inflight
  split
  · exact ⟨rfl, rfl, rfl, rfl⟩
  · exact ⟨rfl, rfl, rfl, rfl⟩

theorem excessive_explicit_congestion_preserves (e : Estimator) (b : Bool) :
    ((excessive_explicit_congestion e b).2).full_bw = e.full_bw ∧
    ((excessive_explicit_congestion e b).2).full_bw_count = e.full_bw_count ∧
    ((excessive_explicit_congestion e b).2).loss_bursts = e.loss_bursts ∧
    ((excessive_explicit_congestion e b).2).in_recovery_last_round
      = e.in_recovery_last_round := by
  unfold excessive_explicit_congestion
  cases b
  · exact ⟨rfl, rfl, rfl, rfl⟩
  · exact ⟨rfl, rfl, rfl, rfl⟩

theorem excessive_inflight_true_eq (f : RateSample → Nat → Bool)
    (e : Estimator) (rs : RateSample) (inr : Bool) (mds : Nat)
    (h : (excessive_inflight f e rs inr mds).1 = true) :
    (excessive_inflight f e rs inr mds).2 = e := by
  unfold excessive_inflight at h ⊢
  split at h
  · split
    · rfl
    · simp_all
  · simp at h

theorem on_round_start_of_filled (f : RateSample → Nat → Bool)
    (e : Estimator) (rs : RateSample) (mb : Bandwidth) (inr ecnb : Bool)
    (mds : Nat) (h : e.filled_pipe = true) :
    on_round_start f e rs mb inr ecnb mds = e := by
  unfold on_round_start
  simp [h]

theorem on_packet_lost_of_filled (e : Estimator) (b : Bool)
    (h : e.filled_pipe = true) :
    on_packet_lost e b = e := by
  unfold on_packet_lost
  simp [h]

theorem step_of_filled (f : RateSample → Nat → Bool) (e : Estimator)
    (ev : Event) (h : e.filled_pipe = true) : step f e ev = e := by
  cases ev
  · exact on_round_start_of_filled _ _ _ _ _ _ _ h
  · exact on_packet_lost_of_filled _ _ h

/-- Claim C1: filled_pipe is sticky and terminal.  From any state with
filled_pipe set, every sequence of on_round_start and on_packet_lost calls,
with any inputs, leaves the whole state unchanged (both entry points return
immediately), and in particular filled_pipe remains true. -/
theorem filled_pipe_sticky (f : RateSample → Nat → Bool) (e : Estimator)
    (evs : List Event) (h : e.filled_pipe = true) :
    run f e evs = e ∧ (run f e evs).filled_pipe = true := by
  have main : run f e evs = e := by
    induction evs with
    | nil => rfl
    | cons ev t ih =>
      show List.foldl (step f) (step f e ev) t = e
      rw [step_of_filled f e ev h]
      exact ih
  exact ⟨main, by rw [main, h]⟩

/-- Witness for C1 at a concrete filled state and a concrete call
sequence exercising both entry points. -/
theorem filled_pipe_sticky_witness :
    run (fun _ _ => true)
      { filled_pipe := true, full_bw := ⟨7, 2⟩, full_bw_count := 9
        loss_bursts := 3, ecn_ce_rounds := 1, in_recovery_last_round := true }
      [Event.packetLost true,
       Event.roundStart RateSample.init ⟨5, 1⟩ true true 1200,
       Event.packetLost false]
      = { filled_pipe := true, full_bw := ⟨7, 2⟩, full_bw_count := 9
          loss_bursts := 3, ecn_ce_rounds := 1
          in_recovery_last_round := true } :=
  (filled_pipe_sticky _ _ _ rfl).1

/-- Claim C8: on_packet_lost contract.  If filled_pipe is set the call is a
no-op; otherwise a new loss burst increments loss_bursts saturating and a
non-burst loss changes nothing; no other field is ever modified and
filled_pipe is never set by this entry point. -/
theorem on_packet_lost_contract (e : Estimator) (b : Bool) :
    (e.filled_pipe = true → on_packet_lost e b = e) ∧
    (e.filled_pipe = false → b = true →
      on_packet_lost e b = { e with loss_bursts := satIncr e.loss_bursts }) ∧
    (e.filled_pipe = false → b = false → on_packet_lost e b = e) ∧
    (on_packet_lost e b).filled_pipe = e.filled_pipe ∧
    (on_packet_lost e b).full_bw = e.full_bw ∧
    (on_packet_lost e b).full_bw_count = e.full_bw_count ∧
    (on_packet_lost e b).ecn_ce_rounds = e.ecn_ce_rounds ∧
    (on_packet_lost e b).in_recovery_last_round = e.in_recovery_last_round := by
  cases hf : e.filled_pipe <;> cases b <;>
    simp [on_packet_lost, hf]

/-- Witness for C8: a concrete unfilled state with loss_bursts 2 moves to
loss_bursts 3 on a new loss burst. -/
theorem on_packet_lost_contract_witness :
    on_packet_lost
      { filled_pipe := false, full_bw := ⟨1, 1⟩, full_bw_count := 0
        loss_bursts := 2, ecn_ce_rounds := 0, in_recovery_last_round := false }
      true
      = { filled_pipe := false, full_bw := ⟨1, 1⟩, full_bw_count := 0
          loss_bursts := 3, ecn_ce_rounds := 0
          in_recovery_last_round := false } :=
  (on_packet_lost_contract _ true).2.1 rfl rfl

/-- Claim C2 (code bug): with baseline full_bw = 4 bytes per unit time and a
non-app-limited sample reporting max_bw = 5, the 1.25 growth condition
max_bw >= full_bw * 1.25 holds under exact rational comparison (5 = 4 * 5/4),
so the claim requires the baseline to be reset to 5 with full_bw_count 0 and
a false return.  The code instead compares against
DELIVERY_RATE_INCREASE = Ratio::new_raw(4, 3) — contradicting its own
adjoining comment and the quoted IETF draft, which both say 1.25 — so it
leaves full_bw at 4 and increments full_bw_count to 1. -/
theorem delivery_rate_increase_bug :
    Bandwidth.le (Bandwidth.mulFrac ⟨4, 1⟩ 5 4) ⟨5, 1⟩ = true ∧
    DELIVERY_RATE_INCREASE = (4, 3) ∧
    bandwidth_plateaued
      { filled_pipe := false, full_bw := ⟨4, 1⟩, full_bw_count := 0
        loss_bursts := 0, ecn_ce_rounds := 0, in_recovery_last_round := false }
      RateSample.init ⟨5, 1⟩
      = (false,
         { filled_pipe := false, full_bw := ⟨4, 1⟩, full_bw_count := 1
           loss_bursts := 0, ecn_ce_rounds := 0
           in_recovery_last_round := false }) := by
  exact ⟨by decide, rfl, by decide⟩

/-- Claim C9: all three counters saturate at the u8 maximum 255.  The
increment in on_packet_lost, the plateau-round increment in
bandwidth_plateaued and the ECN-round increment in
excessive_explicit_congestion each leave a counter already at 255 at 255
rather than wrapping; every increment is a total function. -/
theorem counters_saturate (e : Estimator) (rs : RateSample) (mb : Bandwidth) :
    satIncr 255 = 255 ∧
    (e.filled_pipe = false → e.loss_bursts = 255 →
      (on_packet_lost e true).loss_bursts = 255) ∧
    (e.full_bw_count = 255 → rs.is_app_limited = false →
      Bandwidth.le
        (e.full_bw.mulFrac DELIVERY_RATE_INCREASE.1 DELIVERY_RATE_INCREASE.2)
        mb = false →
      ((bandwidth_plateaued e rs mb).2).full_bw_count = 255) ∧
    (e.ecn_ce_rounds = 255 →
      ((excessive_explicit_congestion e true).2).ecn_ce_rounds = 255) := by
  refine ⟨rfl, ?_, ?_, ?_⟩
  · intro hf hl
    simp [on_packet_lost, hf, hl, satIncr]
  · intro hc ha hle
    simp [bandwidth_plateaued, ha, hle, hc, satIncr]
  · intro he
    simp [excessive_explicit_congestion, he, satIncr]

/-- Witness for C9 at a concrete state with every counter at 255. -/
theorem counters_saturate_witness :
    satIncr 255 = 255 ∧
    (on_packet_lost
      { filled_pipe := false, full_bw := ⟨3, 1⟩, full_bw_count := 255
        loss_bursts := 255, ecn_ce_rounds := 255
        in_recovery_last_round := false } true).loss_bursts = 255 ∧
    ((bandwidth_plateaued
      { filled_pipe := false, full_bw := ⟨3, 1⟩, full_bw_count := 255
        loss_bursts := 255, ecn_ce_rounds := 255
        in_recovery_last_round := false } RateSample.init
      ⟨1, 1⟩).2).full_bw_count = 255 ∧
    ((excessive_explicit_congestion
      { filled_pipe := false, full_bw := ⟨3, 1⟩, full_bw_count := 255
        loss_bursts := 255, ecn_ce_rounds := 255
        in_recovery_last_round := false } true).2).ecn_ce_rounds = 255 :=
  ⟨(counters_saturate ⟨false, ⟨3, 1⟩, 255, 255, 255, false⟩
      RateSample.init ⟨1, 1⟩).1,
   (counters_saturate ⟨false, ⟨3, 1⟩, 255, 255, 255, false⟩
      RateSample.init ⟨1, 1⟩).2.1 rfl rfl,
   (counters_saturate ⟨false, ⟨3, 1⟩, 255, 255, 255, false⟩
      RateSample.init ⟨1, 1⟩).2.2.1 rfl rfl (by decide),
   (counters_saturate ⟨false, ⟨3, 1⟩, 255, 255, 255, false⟩
      RateSample.init ⟨1, 1⟩).2.2.2 rfl⟩

/-- Claim C5: excessive_inflight contract.  The check returns true exactly
when in_recovery holds, in_recovery_last_round held, the external
inflight-too-high classification holds for the sample and loss_bursts is at
least STARTUP_FULL_LOSS_COUNT = 3; in that case it mutates nothing, and in
every other case it records in_recovery into in_recovery_last_round, resets
loss_bursts to 0 and returns false. -/
theorem excessive_inflight_contract (f : RateSample → Nat → Bool)
    (e : Estimator) (rs : RateSample) (inr : Bool) (mds : Nat) :
    ((excessive_inflight f e rs inr mds).1 = true ↔
      (inr = true ∧ e.in_recovery_last_round = true ∧ f rs mds = true ∧
        STARTUP_FULL_LOSS_COUNT ≤ e.loss_bursts)) ∧
    ((excessive_inflight f e rs inr mds).1 = true →
      (excessive_inflight f e rs inr mds).2 = e) ∧
    ((excessive_inflight f e rs inr mds).1 = false →
      (excessive_inflight f e rs inr mds).2
        = { e with in_recovery_last_round := inr, loss_bursts := 0 }) := by
  cases hc : (inr && e.in_recovery_last_round && f rs mds
      && decide (STARTUP_FULL_LOSS_COUNT ≤ e.loss_bursts)) with
  | false =>
    refine ⟨?_, ?_, ?_⟩
    · constructor
      · intro habs
        rw [excessive_inflight, if_neg (by simp [hc])] at habs
        exact absurd habs (by simp)
      · rintro ⟨h1, h2, h3, h4⟩
        rw [h1, h2, h3] at hc
        simp [h4] at hc
    · intro habs
      rw [excessive_inflight, if_neg (by simp [hc])] at habs
      exact absurd habs (by simp)
    · intro _
      rw [excessive_inflight, if_neg (by simp [hc])]
  | true =>
    simp only [Bool.and_eq_true, decide_eq_true_eq] at hc
    refine ⟨?_, ?_, ?_⟩
    · rw [excessive_inflight,
        if_pos (by simp [hc.1.1.1, hc.1.1.2, hc.1.2, hc.2])]
      simpa using ⟨hc.1.1.1, hc.1.1.2, hc.1.2, hc.2⟩
    · intro _
      rw [excessive_inflight,
        if_pos (by simp [hc.1.1.1, hc.1.1.2, hc.1.2, hc.2])]
    · intro habs
      rw [excessive_inflight,
        if_pos (by simp [hc.1.1.1, hc.1.1.2, hc.1.2, hc.2])] at habs
      exact absurd habs (by simp)

/-- Witness for C5: with the condition fully satisfied the state is
untouched, and with in_recovery false the state records in_recovery and
resets loss_bursts. -/
theorem excessive_inflight_contract_witness :
    (excessive_inflight (fun _ _ => true)
      { filled_pipe := false, full_bw := ⟨2, 1⟩, full_bw_count := 1
        loss_bursts := 3, ecn_ce_rounds := 0, in_recovery_last_round := true }
      RateSample.init true 1200).2
      = { filled_pipe := false, full_bw := ⟨2, 1⟩, full_bw_count := 1
          loss_bursts := 3, ecn_ce_rounds := 0
          in_recovery_last_round := true } ∧
    (excessive_inflight (fun _ _ => true)
      { filled_pipe := false, full_bw := ⟨2, 1⟩, full_bw_count := 1
        loss_bursts := 3, ecn_ce_rounds := 0, in_recovery_last_round := true }
      RateSample.init false 1200).2
      = { filled_pipe := false, full_bw := ⟨2, 1⟩, full_bw_count := 1
          loss_bursts := 0, ecn_ce_rounds := 0
          in_recovery_last_round := false } :=
  ⟨(excessive_inflight_contract (fun _ _ => true)
      ⟨false, ⟨2, 1⟩, 1, 3, 0, true⟩ RateSample.init true 1200).2.1 (by decide),
   (excessive_inflight_contract (fun _ _ => true)
      ⟨false, ⟨2, 1⟩, 1, 3, 0, true⟩ RateSample.init false 1200).2.2 (by decide)⟩

theorem on_round_start_app_limited_no_recovery (f : RateSample → Nat → Bool)
    (e : Estimator) (rs : RateSample) (mb : Bandwidth) (ecnb : Bool)
    (mds : Nat) (hf : e.filled_pipe = false) (ha : rs.is_app_limited = true) :
    on_round_start f e rs mb false ecnb mds =
      { e with in_recovery_last_round := false, loss_bursts := 0
               ecn_ce_rounds := if ecnb then satIncr e.ecn_ce_rounds else 0
               filled_pipe :=
                 decide (STARTUP_FULL_ECN_COUNT
                   ≤ (if ecnb then satIncr e.ecn_ce_rounds else 0)) } := by
  unfold on_round_start bandwidth_plateaued excessive_inflight
    excessive_explicit_congestion
  simp [hf, ha]
  cases ecnb <;> simp

/-- Claim C6: ECN check contract and contiguity.  The check increments
ecn_ce_rounds (saturating) when ecn_ce_count_too_high holds and resets it to
0 otherwise, then returns true iff ecn_ce_rounds reached
STARTUP_FULL_ECN_COUNT = 2; consequently, starting from a zero ECN count,
two consecutive qualifying rounds set filled_pipe, while one non-qualifying
round between two qualifying rounds restarts the count and leaves
filled_pipe false. -/
theorem ecn_contract_and_contiguity :
    (∀ (e : Estimator) (b : Bool),
      ((excessive_explicit_congestion e b).2).ecn_ce_rounds
        = (if b then satIncr e.ecn_ce_rounds else 0) ∧
      ((excessive_explicit_congestion e b).1 = true ↔
        STARTUP_FULL_ECN_COUNT
          ≤ ((excessive_explicit_congestion e b).2).ecn_ce_rounds)) ∧
    (∀ (f : RateSample → Nat → Bool) (e : Estimator) (rs : RateSample)
       (mb : Bandwidth) (mds : Nat),
      e.filled_pipe = false → rs.is_app_limited = true →
      e.ecn_ce_rounds = 0 →
      ((run f e [Event.roundStart rs mb false true mds,
                 Event.roundStart rs mb false true mds]).filled_pipe = true ∧
       (run f e [Event.roundStart rs mb false true mds,
                 Event.roundStart rs mb false false mds,
                 Event.roundStart rs mb false true mds]).filled_pipe
         = false)) := by
  constructor
  · intro e b
    cases b <;> simp [excessive_explicit_congestion]
  · intro f e rs mb mds hf ha he
    constructor
    · show (on_round_start f (on_round_start f e rs mb false true mds)
        rs mb false true mds).filled_pipe = true
      rw [on_round_start_app_limited_no_recovery f e rs mb true mds hf ha]
      rw [on_round_start_app_limited_no_recovery f _ rs mb true mds
        (by simp [he, satIncr, STARTUP_FULL_ECN_COUNT]) ha]
      simp [he, satIncr, STARTUP_FULL_ECN_COUNT]
    · show (on_round_start f (on_round_start f (on_round_start f e
        rs mb false true mds) rs mb false false mds)
        rs mb false true mds).filled_pipe = false
      rw [on_round_start_app_limited_no_recovery f e rs mb true mds hf ha]
      rw [on_round_start_app_limited_no_recovery f _ rs mb false mds
        (by simp [he, satIncr, STARTUP_FULL_ECN_COUNT]) ha]
      rw [on_round_start_app_limited_no_recovery f _ rs mb true mds
        (by simp [satIncr, STARTUP_FULL_ECN_COUNT]) ha]
      simp [satIncr, STARTUP_FULL_ECN_COUNT]

/-- Witness for C6 from the all-default state with an app-limited sample. -/
theorem ecn_contract_and_contiguity_witness :
    ((excessive_explicit_congestion Estimator.init true).2).ecn_ce_rounds
      = 1 ∧
    ((run (fun _ _ => false) Estimator.init
      [Event.roundStart { RateSample.init with is_app_limited := true }
         ⟨9, 2⟩ false true 1200,
       Event.roundStart { RateSample.init with is_app_limited := true }
         ⟨9, 2⟩ false true 1200]).filled_pipe = true ∧
     (run (fun _ _ => false) Estimator.init
      [Event.roundStart { RateSample.init with is_app_limited := true }
         ⟨9, 2⟩ false true 1200,
       Event.roundStart { RateSample.init with is_app_limited := true }
         ⟨9, 2⟩ false false 1200,
       Event.roundStart { RateSample.init with is_app_limited := true }
         ⟨9, 2⟩ false true 1200]).filled_pipe = false) :=
  ⟨(ecn_contract_and_contiguity.1 Estimator.init true).1,
   ecn_contract_and_contiguity.2 (fun _ _ => false) Estimator.init
     { RateSample.init with is_app_limited := true } ⟨9, 2⟩ 1200
     rfl rfl rfl⟩

/-- Claim C4: short-circuit evidence isolation.  In an on_round_start call
in which bandwidth_plateaued returns true, the later checks are not
evaluated, so loss_bursts, ecn_ce_rounds and in_recovery_last_round keep the
values they had before the call; and if bandwidth_plateaued returns false
while excessive_inflight returns true, ecn_ce_rounds keeps its value. -/
theorem short_circuit_isolation (f : RateSample → Nat → Bool) (e : Estimator)
    (rs : RateSample) (mb : Bandwidth) (inr ecnb : Bool) (mds : Nat) :
    (e.filled_pipe = false → (bandwidth_plateaued e rs mb).1 = true →
      ((on_round_start f e rs mb inr ecnb mds).loss_bursts = e.loss_bursts ∧
       (on_round_start f e rs mb inr ecnb mds).ecn_ce_rounds
         = e.ecn_ce_rounds ∧
       (on_round_start f e rs mb inr ecnb mds).in_recovery_last_round
         = e.in_recovery_last_round)) ∧
    (e.filled_pipe = false → (bandwidth_plateaued e rs mb).1 = false →
      (excessive_inflight f (bandwidth_plateaued e rs mb).2 rs inr mds).1
        = true →
      (on_round_start f e rs mb inr ecnb mds).ecn_ce_rounds
        = e.ecn_ce_rounds) := by
  have hfields := bandwidth_plateaued_preserves e rs mb
  rcases hbp : bandwidth_plateaued e rs mb with ⟨b1, e1⟩
  rw [hbp] at hfields
  simp only at hfields
  constructor
  · intro hf h1
    simp only at h1
    subst h1
    simp only [on_round_start, hf, Bool.false_eq_true, if_false, hbp]
    exact ⟨hfields.1, hfields.2.1, hfields.2.2.1⟩
  · intro hf h1 h2
    simp only at h1 h2
    subst h1
    have he2 := excessive_inflight_true_eq f e1 rs inr mds h2
    rcases hin : excessive_inflight f e1 rs inr mds with ⟨b2, e2⟩
    rw [hin] at h2 he2
    simp only at h2 he2
    subst h2
    simp only [on_round_start, hf, Bool.false_eq_true, if_false, hbp, hin]
    rw [he2]
    exact hfields.2.1

/-- Witness for C4: the plateau check fires at a stagnant bandwidth with the
loss and recovery evidence left intact, and the inflight check fires on an
app-limited sample with the ECN count left intact. -/
theorem short_circuit_isolation_witness :
    ((on_round_start (fun _ _ => true)
        { filled_pipe := false, full_bw := ⟨1, 1⟩, full_bw_count := 2
          loss_bursts := 7, ecn_ce_rounds := 5
          in_recovery_last_round := true }
        RateSample.init ⟨1, 1⟩ true true 9).loss_bursts = 7 ∧
     (on_round_start (fun _ _ => true)
        { filled_pipe := false, full_bw := ⟨1, 1⟩, full_bw_count := 2
          loss_bursts := 7, ecn_ce_rounds := 5
          in_recovery_last_round := true }
        RateSample.init ⟨1, 1⟩ true true 9).ecn_ce_rounds = 5 ∧
     (on_round_start (fun _ _ => true)
        { filled_pipe := false, full_bw := ⟨1, 1⟩, full_bw_count := 2
          loss_bursts := 7, ecn_ce_rounds := 5
          in_recovery_last_round := true }
        RateSample.init ⟨1, 1⟩ true true 9).in_recovery_last_round = true) ∧
    (on_round_start (fun _ _ => true)
        { filled_pipe := false, full_bw := ⟨1, 1⟩, full_bw_count := 0
          loss_bursts := 3, ecn_ce_rounds := 6
          in_recovery_last_round := true }
        { RateSample.init with is_app_limited := true }
        ⟨1, 1⟩ true true 9).ecn_ce_rounds = 6 :=
  ⟨(short_circuit_isolation (fun _ _ => true)
      ⟨false, ⟨1, 1⟩, 2, 7, 5, true⟩ RateSample.init ⟨1, 1⟩ true true 9).1
      rfl (by decide),
   (short_circuit_isolation (fun _ _ => true)
      ⟨false, ⟨1, 1⟩, 0, 3, 6, true⟩
      { RateSample.init with is_app_limited := true } ⟨1, 1⟩ true true 9).2
      rfl (by decide) (by decide)⟩

/-- Claim C7: app-limited immunity.  An app-limited rate sample makes
bandwidth_plateaued return false with the state untouched, and any sequence
of app-limited rounds with in_recovery false and ecn_ce_count_too_high
false leaves full_bw and full_bw_count unchanged and filled_pipe false. -/
theorem app_limited_immunity :
    (∀ (e : Estimator) (rs : RateSample) (mb : Bandwidth),
      rs.is_app_limited = true → bandwidth_plateaued e rs mb = (false, e)) ∧
    (∀ (f : RateSample → Nat → Bool) (e : Estimator) (mds : Nat)
       (rounds : List (RateSample × Bandwidth)),
      e.filled_pipe = false →
      (∀ p ∈ rounds, (p.1).is_app_limited = true) →
      ((rounds.foldl
          (fun st p => on_round_start f st p.1 p.2 false false mds)
          e).full_bw = e.full_bw ∧
       (rounds.foldl
          (fun st p => on_round_start f st p.1 p.2 false false mds)
          e).full_bw_count = e.full_bw_count ∧
       (rounds.foldl
          (fun st p => on_round_start f st p.1 p.2 false false mds)
          e).filled_pipe = false)) := by
  constructor
  · intro e rs mb ha
    unfold bandwidth_plateaued
    simp [ha]
  · intro f e mds rounds
    induction rounds generalizing e with
    | nil => exact fun hf _ => ⟨rfl, rfl, hf⟩
    | cons p t ih =>
      intro hf hall
      rw [List.foldl_cons,
        on_round_start_app_limited_no_recovery f e p.1 p.2 false mds hf
          (hall p (List.mem_cons_self p t))]
      have hrest := ih { e with in_recovery_last_round := false
                                loss_bursts := 0, ecn_ce_rounds := 0
                                filled_pipe :=
                                  decide (STARTUP_FULL_ECN_COUNT ≤ 0) }
        (by simp [STARTUP_FULL_ECN_COUNT])
        (fun q hq => hall q (List.mem_cons_of_mem p hq))
      simpa using hrest

/-- Witness for C7: two stagnant app-limited rounds from a mid-flight state
leave the baseline, the plateau count and the flag unchanged. -/
theorem app_limited_immunity_witness :
    bandwidth_plateaued
      { filled_pipe := false, full_bw := ⟨8, 1⟩, full_bw_count := 2
        loss_bursts := 1, ecn_ce_rounds := 0, in_recovery_last_round := false }
      { RateSample.init with is_app_limited := true } ⟨8, 1⟩
      = (false,
         { filled_pipe := false, full_bw := ⟨8, 1⟩, full_bw_count := 2
           loss_bursts := 1, ecn_ce_rounds := 0
           in_recovery_last_round := false }) ∧
    (([({ RateSample.init with is_app_limited := true }, (⟨8, 1⟩ : Bandwidth)),
       ({ RateSample.init with is_app_limited := true }, (⟨8, 1⟩ : Bandwidth))]
        : List (RateSample × Bandwidth)).foldl
        (fun st p =>
          on_round_start (fun _ _ => false) st p.1 p.2 false false 1200)
        { filled_pipe := false, full_bw := ⟨8, 1⟩, full_bw_count := 2
          loss_bursts := 1, ecn_ce_rounds := 0
          in_recovery_last_round := false }).full_bw_count = 2 :=
  ⟨app_limited_immunity.1 ⟨false, ⟨8, 1⟩, 2, 1, 0, false⟩
     { RateSample.init with is_app_limited := true } ⟨8, 1⟩ rfl,
   (app_limited_immunity.2 (fun _ _ => false)
     ⟨false, ⟨8, 1⟩, 2, 1, 0, false⟩ 1200
     [({ RateSample.init with is_app_limited := true }, ⟨8, 1⟩),
      ({ RateSample.init with is_app_limited := true }, ⟨8, 1⟩)]
     rfl (by intro p hp; fin_cases hp <;> rfl)).2.1⟩

theorem not_le_four_thirds_of_lt_five_quarters (B mb : Bandwidth)
    (h : Bandwidth.lt mb (B.mulFrac 5 4) = true) :
    Bandwidth.le
      (B.mulFrac DELIVERY_RATE_INCREASE.1 DELIVERY_RATE_INCREASE.2) mb
      = false := by
  simp only [Bandwidth.lt, Bandwidth.mulFrac, decide_eq_true_eq] at h
  simp only [Bandwidth.le, Bandwidth.mulFrac, DELIVERY_RATE_INCREASE,
    decide_eq_false_iff_not, Nat.not_le]
  nlinarith [h]

theorem on_round_start_stagnant_continue (f : RateSample → Nat → Bool)
    (e : Estimator) (rs : RateSample) (mb : Bandwidth) (mds : Nat)
    (hf : e.filled_pipe = false) (ha : rs.is_app_limited = false)
    (hle : Bandwidth.le
      (e.full_bw.mulFrac DELIVERY_RATE_INCREASE.1 DELIVERY_RATE_INCREASE.2)
      mb = false)
    (hcnt : satIncr e.full_bw_count < BANDWIDTH_PLATEAU_ROUND_COUNT) :
    on_round_start f e rs mb false false mds =
      { e with full_bw_count := satIncr e.full_bw_count
               in_recovery_last_round := false, loss_bursts := 0
               ecn_ce_rounds := 0 } := by
  have hdec : decide (BANDWIDTH_PLATEAU_ROUND_COUNT
      ≤ satIncr e.full_bw_count) = false :=
    decide_eq_false (not_le.mpr hcnt)
  unfold on_round_start bandwidth_plateaued excessive_inflight
    excessive_explicit_congestion
  simp [hf, ha, hle, hdec, STARTUP_FULL_ECN_COUNT]

theorem on_round_start_stagnant_flip (f : RateSample → Nat → Bool)
    (e : Estimator) (rs : RateSample) (mb : Bandwidth) (inr ecnb : Bool)
    (mds : Nat)
    (hf : e.filled_pipe = false) (ha : rs.is_app_limited = false)
    (hle : Bandwidth.le
      (e.full_bw.mulFrac DELIVERY_RATE_INCREASE.1 DELIVERY_RATE_INCREASE.2)
      mb = false)
    (hcnt : BANDWIDTH_PLATEAU_ROUND_COUNT ≤ satIncr e.full_bw_count) :
    on_round_start f e rs mb inr ecnb mds =
      { e with full_bw_count := satIncr e.full_bw_count
               filled_pipe := true } := by
  have hdec : decide (BANDWIDTH_PLATEAU_ROUND_COUNT
      ≤ satIncr e.full_bw_count) = true := decide_eq_true hcnt
  unfold on_round_start bandwidth_plateaued
  simp [hf, ha, hle, hdec]

/-- Claim C3: plateau exactness.  From any unfilled state with a fresh
baseline (full_bw_count = 0), three consecutive non-app-limited rounds each
reporting max_bw strictly below 1.25 times the current full_bw (so the
baseline is never reset) increment full_bw_count to 1, 2 and 3, leave
filled_pipe false after the first two calls, and set it on the third, i.e.
exactly when full_bw_count reaches 3.  The rounds carry in_recovery false
and ecn_ce_count_too_high false so that only the plateau check is in
play. -/
theorem plateau_exactness (f : RateSample → Nat → Bool) (e : Estimator)
    (rs1 rs2 rs3 : RateSample) (mb1 mb2 mb3 : Bandwidth)
    (mds1 mds2 mds3 : Nat)
    (hf : e.filled_pipe = false) (hc : e.full_bw_count = 0)
    (ha1 : rs1.is_app_limited = false) (ha2 : rs2.is_app_limited = false)
    (ha3 : rs3.is_app_limited = false)
    (hm1 : Bandwidth.lt mb1 (e.full_bw.mulFrac 5 4) = true)
    (hm2 : Bandwidth.lt mb2 (e.full_bw.mulFrac 5 4) = true)
    (hm3 : Bandwidth.lt mb3 (e.full_bw.mulFrac 5 4) = true) :
    (on_round_start f e rs1 mb1 false false mds1).filled_pipe = false ∧
    (on_round_start f e rs1 mb1 false false mds1).full_bw = e.full_bw ∧
    (on_round_start f e rs1 mb1 false false mds1).full_bw_count = 1 ∧
    (on_round_start f (on_round_start f e rs1 mb1 false false mds1)
      rs2 mb2 false false mds2).filled_pipe = false ∧
    (on_round_start f (on_round_start f e rs1 mb1 false false mds1)
      rs2 mb2 false false mds2).full_bw = e.full_bw ∧
    (on_round_start f (on_round_start f e rs1 mb1 false false mds1)
      rs2 mb2 false false mds2).full_bw_count = 2 ∧
    (on_round_start f (on_round_start f
      (on_round_start f e rs1 mb1 false false mds1)
      rs2 mb2 false false mds2) rs3 mb3 false false mds3).filled_pipe
      = true ∧
    (on_round_start f (on_round_start f
      (on_round_start f e rs1 mb1 false false mds1)
      rs2 mb2 false false mds2) rs3 mb3 false false mds3).full_bw_count
      = 3 := by
  obtain ⟨fp, fb, fbc, lb, ec, irl⟩ := e
  dsimp only at hf hc hm1 hm2 hm3 ⊢
  subst hf hc
  have h1 : satIncr 0 < BANDWIDTH_PLATEAU_ROUND_COUNT := by decide
  have h2 : satIncr (satIncr 0) < BANDWIDTH_PLATEAU_ROUND_COUNT := by decide
  have h3 : BANDWIDTH_PLATEAU_ROUND_COUNT ≤ satIncr (satIncr (satIncr 0)) :=
    by decide
  rw [on_round_start_stagnant_continue f _ rs1 mb1 mds1 rfl ha1
    (not_le_four_thirds_of_lt_five_quarters fb mb1 hm1) h1]
  rw [on_round_start_stagnant_continue f _ rs2 mb2 mds2 rfl ha2
    (not_le_four_thirds_of_lt_five_quarters fb mb2 hm2) h2]
  rw [on_round_start_stagnant_flip f _ rs3 mb3 false false mds3 rfl ha3
    (not_le_four_thirds_of_lt_five_quarters fb mb3 hm3) h3]
  exact ⟨rfl, rfl, rfl, rfl, rfl, rfl, rfl, rfl⟩

/-- Witness for C3: baseline 1000 bytes per unit time, three rounds at
max_bw 1200 (growth factor 1.2, below 1.25). -/
theorem plateau_exactness_witness :
    (on_round_start (fun _ _ => false)
      { filled_pipe := false, full_bw := ⟨1000, 1⟩, full_bw_count := 0
        loss_bursts := 0, ecn_ce_rounds := 0, in_recovery_last_round := false }
      RateSample.init ⟨1200, 1⟩ false false 1200).filled_pipe = false ∧
    (on_round_start (fun _ _ => false) (on_round_start (fun _ _ => false)
      { filled_pipe := false, full_bw := ⟨1000, 1⟩, full_bw_count := 0
        loss_bursts := 0, ecn_ce_rounds := 0, in_recovery_last_round := false }
      RateSample.init ⟨1200, 1⟩ false false 1200)
      RateSample.init ⟨1200, 1⟩ false false 1200).filled_pipe = false ∧
    (on_round_start (fun _ _ => false) (on_round_start (fun _ _ => false)
      (on_round_start (fun _ _ => false)
      { filled_pipe := false, full_bw := ⟨1000, 1⟩, full_bw_count := 0
        loss_bursts := 0, ecn_ce_rounds := 0, in_recovery_last_round := false }
      RateSample.init ⟨1200, 1⟩ false false 1200)
      RateSample.init ⟨1200, 1⟩ false false 1200)
      RateSample.init ⟨1200, 1⟩ false false 1200).filled_pipe = true := by
  have h := plateau_exactness (fun _ _ => false)
    ⟨false, ⟨1000, 1⟩, 0, 0, 0, false⟩
    RateSample.init RateSample.init RateSample.init
    ⟨1200, 1⟩ ⟨1200, 1⟩ ⟨1200, 1⟩ 1200 1200 1200
    rfl rfl rfl rfl rfl (by decide) (by decide) (by decide)
  exact ⟨h.1, h.2.2.2.1, h.2.2.2.2.2.2.1⟩

theorem bandwidth_le_refl (b : Bandwidth) : Bandwidth.le b b = true := by
  simp [Bandwidth.le]

theorem bandwidth_le_trans (a b c : Bandwidth)
    (hab : Bandwidth.le a b = true) (hbc : Bandwidth.le b c = true)
    (hb : 0 < b.nanos) : Bandwidth.le a c = true := by
  simp only [Bandwidth.le, decide_eq_true_eq] at hab hbc ⊢
  have key : (a.bytes * c.nanos) * b.nanos ≤ (c.bytes * a.nanos) * b.nanos :=
    by nlinarith [Nat.mul_le_mul_right c.nanos hab,
      Nat.mul_le_mul_right a.nanos hbc]
  exact Nat.le_of_mul_le_mul_right key hb

theorem bandwidth_le_of_mulFrac_le (fb mb : Bandwidth)
    (h : Bandwidth.le
      (fb.mulFrac DELIVERY_RATE_INCREASE.1 DELIVERY_RATE_INCREASE.2) mb
      = true) :
    Bandwidth.le fb mb = true := by
  simp only [Bandwidth.le, Bandwidth.mulFrac, DELIVERY_RATE_INCREASE,
    decide_eq_true_eq] at h ⊢
  nlinarith [h]

theorem on_packet_lost_full_bw (e : Estimator) (b : Bool) :
    (on_packet_lost e b).full_bw = e.full_bw := by
  unfold on_packet_lost
  split
  · rfl
  · split
    · rfl
    · rfl

theorem bandwidth_plateaued_full_bw_cases (e : Estimator) (rs : RateSample)
    (mb : Bandwidth) :
    ((bandwidth_plateaued e rs mb).2).full_bw = e.full_bw ∨
    (((bandwidth_plateaued e rs mb).2).full_bw = mb ∧
      Bandwidth.le
        (e.full_bw.mulFrac DELIVERY_RATE_INCREASE.1 DELIVERY_RATE_INCREASE.2)
        mb = true) := by
  unfold bandwidth_plateaued
  split
  · exact Or.inl rfl
  · split
    · rename_i h
      exact Or.inr ⟨rfl, h⟩
    · exact Or.inl rfl

theorem on_round_start_after_plateau (f : RateSample → Nat → Bool)
    (e : Estimator) (rs : RateSample) (mb : Bandwidth) (inr ecnb : Bool)
    (mds : Nat) (hf : e.filled_pipe = false) :
    (on_round_start f e rs mb inr ecnb mds).full_bw
      = ((bandwidth_plateaued e rs mb).2).full_bw ∧
    (on_round_start f e rs mb inr ecnb mds).full_bw_count
      = ((bandwidth_plateaued e rs mb).2).full_bw_count := by
  simp only [on_round_start, hf, Bool.false_eq_true, if_false]
  rcases hbp : bandwidth_plateaued e rs mb with ⟨b1, e1⟩
  cases b1
  · have hpre := excessive_inflight_preserves f e1 rs inr mds
    rcases hin : excessive_inflight f e1 rs inr mds with ⟨b2, e2⟩
    rw [hin] at hpre
    simp only at hpre ⊢
    rw [hin]
    cases b2
    · have hpre2 := excessive_explicit_congestion_preserves e2 ecnb
      exact ⟨hpre2.1.trans hpre.1, hpre2.2.1.trans hpre.2.1⟩
    · exact ⟨hpre.1, hpre.2.1⟩
  · exact ⟨rfl, rfl⟩

theorem step_full_bw_le (f : RateSample → Nat → Bool) (e : Estimator)
    (ev : Event) : Bandwidth.le e.full_bw ((step f e ev).full_bw) = true := by
  cases ev with
  | packetLost b =>
    rw [step, on_packet_lost_full_bw]
    exact bandwidth_le_refl _
  | roundStart rs mb inr ecnb mds =>
    cases hf : e.filled_pipe with
    | true =>
      rw [step, on_round_start_of_filled f e rs mb inr ecnb mds hf]
      exact bandwidth_le_refl _
    | false =>
      rw [step,
        (on_round_start_after_plateau f e rs mb inr ecnb mds hf).1]
      rcases bandwidth_plateaued_full_bw_cases e rs mb with h | ⟨h, hle⟩
      · rw [h]
        exact bandwidth_le_refl _
      · rw [h]
        exact bandwidth_le_of_mulFrac_le _ _ hle

theorem step_full_bw_wf (f : RateSample → Nat → Bool) (e : Estimator)
    (ev : Event) (hwf : ev.wf) (hew : e.full_bw.wf) :
    ((step f e ev).full_bw).wf := by
  cases ev with
  | packetLost b =>
    rw [step, on_packet_lost_full_bw]
    exact hew
  | roundStart rs mb inr ecnb mds =>
    cases hf : e.filled_pipe with
    | true =>
      rw [step, on_round_start_of_filled f e rs mb inr ecnb mds hf]
      exact hew
    | false =>
      rw [step,
        (on_round_start_after_plateau f e rs mb inr ecnb mds hf).1]
      rcases bandwidth_plateaued_full_bw_cases e rs mb with h | ⟨h, _⟩
      · rw [h]
        exact hew
      · rw [h]
        exact hwf

/-- Claim C10: with the baseline at its zero default, the growth condition
holds for every max_bw (including zero), so a non-app-limited round records
max_bw as the new baseline, leaves full_bw_count at 0 and makes the plateau
check return false; and across every well-formed call sequence full_bw is
non-decreasing in the exact rational order. -/
theorem zero_baseline_and_full_bw_monotone :
    (∀ (e : Estimator) (rs : RateSample) (mb : Bandwidth),
      e.full_bw = Bandwidth.zero → rs.is_app_limited = false →
      Bandwidth.le
        (e.full_bw.mulFrac DELIVERY_RATE_INCREASE.1 DELIVERY_RATE_INCREASE.2)
        mb = true ∧
      bandwidth_plateaued e rs mb
        = (false, { e with full_bw := mb, full_bw_count := 0 })) ∧
    (∀ (f : RateSample → Nat → Bool) (e : Estimator) (rs : RateSample)
       (mb : Bandwidth) (inr ecnb : Bool) (mds : Nat),
      e.filled_pipe = false → e.full_bw = Bandwidth.zero →
      rs.is_app_limited = false →
      (on_round_start f e rs mb inr ecnb mds).full_bw = mb ∧
      (on_round_start f e rs mb inr ecnb mds).full_bw_count = 0) ∧
    (∀ (f : RateSample → Nat → Bool) (e : Estimator) (evs : List Event),
      e.full_bw.wf → (∀ ev ∈ evs, Event.wf ev) →
      Bandwidth.le e.full_bw ((run f e evs).full_bw) = true) := by
  have grow : ∀ (e : Estimator) (rs : RateSample) (mb : Bandwidth),
      e.full_bw = Bandwidth.zero → rs.is_app_limited = false →
      Bandwidth.le
        (e.full_bw.mulFrac DELIVERY_RATE_INCREASE.1 DELIVERY_RATE_INCREASE.2)
        mb = true ∧
      bandwidth_plateaued e rs mb
        = (false, { e with full_bw := mb, full_bw_count := 0 }) := by
    intro e rs mb hz ha
    have hle : Bandwidth.le
        (e.full_bw.mulFrac DELIVERY_RATE_INCREASE.1 DELIVERY_RATE_INCREASE.2)
        mb = true := by
      simp [Bandwidth.le, Bandwidth.mulFrac, hz, Bandwidth.zero]
    refine ⟨hle, ?_⟩
    unfold bandwidth_plateaued
    simp [ha, hle]
  refine ⟨grow, ?_, ?_⟩
  · intro f e rs mb inr ecnb mds hf hz ha
    have h := on_round_start_after_plateau f e rs mb inr ecnb mds hf
    rw [(grow e rs mb hz ha).2] at h
    exact h
  · intro f e evs
    induction evs generalizing e with
    | nil => exact fun _ _ => bandwidth_le_refl _
    | cons ev t ih =>
      intro hew hall
      show Bandwidth.le e.full_bw
        ((List.foldl (step f) (step f e ev) t).full_bw) = true
      have h1 := step_full_bw_le f e ev
      have h2 := ih (step f e ev)
        (step_full_bw_wf f e ev (hall ev (List.mem_cons_self ev t)) hew)
        (fun x hx => hall x (List.mem_cons_of_mem ev hx))
      exact bandwidth_le_trans _ _ _ h1 h2
        (step_full_bw_wf f e ev (hall ev (List.mem_cons_self ev t)) hew)

/-- Witness for C10: from the default state, a non-app-limited round with
max_bw 700 bytes per 3 time units records that baseline and keeps the count
at 0, and full_bw is non-decreasing along a concrete two-round sequence. -/
theorem zero_baseline_and_full_bw_monotone_witness :
    (on_round_start (fun _ _ => false) Estimator.init RateSample.init
      ⟨700, 3⟩ false false 1200).full_bw = ⟨700, 3⟩ ∧
    (on_round_start (fun _ _ => false) Estimator.init RateSample.init
      ⟨700, 3⟩ false false 1200).full_bw_count = 0 ∧
    Bandwidth.le Estimator.init.full_bw
      ((run (fun _ _ => false) Estimator.init
        [Event.roundStart RateSample.init ⟨700, 3⟩ false false 1200,
         Event.packetLost true,
         Event.roundStart RateSample.init ⟨900, 1⟩ true false 1200]).full_bw)
      = true :=
  ⟨(zero_baseline_and_full_bw_monotone.2.1 (fun _ _ => false) Estimator.init
      RateSample.init ⟨700, 3⟩ false false 1200 rfl rfl rfl).1,
   (zero_baseline_and_full_bw_monotone.2.1 (fun _ _ => false) Estimator.init
      RateSample.init ⟨700, 3⟩ false false 1200 rfl rfl rfl).2,
   zero_baseline_and_full_bw_monotone.2.2 (fun _ _ => false) Estimator.init
     [Event.roundStart RateSample.init ⟨700, 3⟩ false false 1200,
      Event.packetLost true,
      Event.roundStart RateSample.init ⟨900, 1⟩ true false 1200]
     (by show (0 : Nat) < 1; decide)
     (by
       intro ev hev
       fin_cases hev
       · show (0 : Nat) < 3
         decide
       · trivial
       · show (0 : Nat) < 1
         decide)⟩

end FullPipe
